import Mathlib

/-!
Verification development for the tech_digest_backup crawler
(`spider.py`, `progress.py`).

The Python sources are shallowly embedded here:
* strings manipulated as byte sequences (`urllib.parse.quote`/`unquote`,
  `os.path` helpers, image `src` rewriting) are modelled over `List ℕ`;
* the lxml document structure relevant to `parse_toc` is modelled by
  structures recording exactly the containers the code queries;
* the asyncio work-queue / single-worker loop of `scrape_worker` is
  modelled as a fuel-indexed transition function on a crawl state, where
  the fuel is the exact bound on loop iterations (each dequeued unit
  consumes one);
* `percent_complete` is modelled over exact rationals, with Python's
  banker rounding (`round`) and `float`-truncation (`int`) made explicit,
  and the `ZeroDivisionError` on `total_steps == 0` surfaced as `Except`.
-/

namespace TechDigest

/-! ## Byte-level percent-encoding (`urllib.parse.quote` / `unquote`)

`quote(s, safe='/')` leaves unreserved characters (ALPHA, DIGIT, `_.-~`)
and `/` untouched and rewrites every other byte to `%XX` with uppercase
hex.  `unquote` decodes every `%XX` with two hex digits and leaves a `%`
that is not followed by two hex digits alone. -/

def quoteSafe (b : ℕ) : Bool :=
  (decide (65 ≤ b) && decide (b ≤ 90)) ||
  (decide (97 ≤ b) && decide (b ≤ 122)) ||
  (decide (48 ≤ b) && decide (b ≤ 57)) ||
  (b == 95) || (b == 46) || (b == 45) || (b == 126) || (b == 47)

def hexUpper (n : ℕ) : ℕ :=
  if n < 10 then 48 + n else 55 + n

def quote : List ℕ → List ℕ
  | [] => []
  | b :: t =>
    if quoteSafe b then b :: quote t
    else 37 :: hexUpper (b / 16) :: hexUpper (b % 16) :: quote t

def isHexDigitB (c : ℕ) : Bool :=
  (decide (48 ≤ c) && decide (c ≤ 57)) ||
  (decide (65 ≤ c) && decide (c ≤ 70)) ||
  (decide (97 ≤ c) && decide (c ≤ 102))

def hexVal (c : ℕ) : ℕ :=
  if c ≤ 57 then c - 48 else if c ≤ 70 then c - 55 else c - 87

/-- One fuel unit is spent per decoded-or-copied position, so fuel equal
to the length of the input always suffices; both recursive calls strictly
shrink the list. -/
def unquoteGo : ℕ → List ℕ → List ℕ
  | 0, s => s
  | _ + 1, [] => []
  | fuel + 1, c :: rest =>
    match rest with
    | h1 :: h2 :: t =>
      if c == 37 && isHexDigitB h1 && isHexDigitB h2 then
        (16 * hexVal h1 + hexVal h2) :: unquoteGo fuel t
      else c :: unquoteGo fuel rest
    | _ => c :: unquoteGo fuel rest

def unquote (s : List ℕ) : List ℕ := unquoteGo s.length s

/-- The path-normalization step shared by `scrape_and_persist`
(`spider.py` lines 123-126) and `parse_imgs` (lines 104-107):
`if unquote(h) == h: h = quote(h, safe='/')`. -/
def pyNormalize (s : List ℕ) : List ℕ :=
  if unquote s = s then quote s else s

/-- Boolean guard that a byte string really consists of bytes. -/
def allBytes (s : List ℕ) : Bool :=
  s.all fun b => decide (b < 256)

/-! ## `os.path` helpers over byte strings -/

/-- `os.path.basename`: the part after the last `/` (byte 47). -/
def basenameB (p : List ℕ) : List ℕ :=
  (p.reverse.takeWhile fun c => ! (c == 47)).reverse

/-- `os.path.dirname`: the part before the last `/`, with trailing
slashes stripped unless the head is all slashes. -/
def dirnameB (p : List ℕ) : List ℕ :=
  let i := p.length - (basenameB p).length
  let head := p.take i
  if head ≠ [] ∧ head.all (fun c => c == 47) = false then
    (head.reverse.dropWhile fun c => c == 47).reverse
  else head

/-- `os.path.join(a, b)` for two components. -/
def joinB (a b : List ℕ) : List ℕ :=
  if b.head? = some 47 then b
  else if a = [] then b
  else if a.getLast? = some 47 then a ++ b
  else a ++ 47 :: b

/-! ## Image `src` handling (`parse_imgs`, `spider.py` lines 101-117) -/

/-- Python `src.split('.')`. -/
def pySplitDot : List ℕ → List (List ℕ)
  | [] => [[]]
  | c :: t =>
    if c = 46 then [] :: pySplitDot t
    else
      match pySplitDot t with
      | [] => [[c]]
      | h :: r => (c :: h) :: r

/-- The in-place `src` rewrite of `parse_imgs` (`spider.py` lines
109-111): `if len(src.split('.')) < 2: src = src + ".png"`. -/
def img_src_rewrite (src : List ℕ) : List ℕ :=
  if (pySplitDot src).length < 2 then src ++ [46, 112, 110, 103] else src

/-- Stated from the claim's words, not from the code: the final path
component (after the last `/`) of a byte string, used to express the
spec's condition "no `.` after the final path separator". -/
def lastPathComponent (p : List ℕ) : List ℕ :=
  (p.reverse.takeWhile fun c => ! (c == 47)).reverse

/-- Bytes of the counterexample src `a.b/c`: a dot in a directory
component, none after the final path separator. -/
def srcDirDot : List ℕ := [97, 46, 98, 47, 99]

/-! ## TOC parsing (`parse_toc`, `spider.py` lines 62-76)

The lxml document is modelled by exactly the containers the code
queries: `doc.body.find_class('book-post')` is a list of posts, each
post's `find('.//ul')` is an optional list of list items, and each list
item's `find('.//a')` is an optional anchor. -/

structure Anchor where
  text : String
  href : String
deriving DecidableEq

structure LItem where
  a : Option Anchor
deriving DecidableEq

structure BookPost where
  ul : Option (List LItem)
deriving DecidableEq

structure HtmlPage where
  posts : List BookPost
deriving DecidableEq

structure TocEntry where
  title : String
  href : String
deriving DecidableEq

/-- `parse_toc`: returns `[]` when no `book-post` container exists;
otherwise takes the first container's first `ul`.  When that `find`
returns `None`, the following `toc.iterchildren()` raises
`AttributeError` (there is no guard), modelled as `Except.error`. -/
def parse_toc (page : HtmlPage) : Except String (List TocEntry) :=
  match page.posts with
  | [] => Except.ok []
  | post :: _ =>
    match post.ul with
    | none => Except.error "AttributeError: NoneType has no attribute iterchildren"
    | some items =>
      Except.ok (items.filterMap fun it => it.a.map fun an => TocEntry.mk an.text an.href)

/-! ## Progress rendering (`progress.py`)

The float expressions of `percent_complete` are modelled by their exact
rational values, all of which have the form `a / total_steps` with `a`
a natural number, so each is handled with exact integer arithmetic:
`perc = 100*step/total`, `perc / 100 * max_ticks = step*max_ticks/total`
and `perc * 100 = 10000*step/total`.  Python's `round` is banker's
rounding (round half to even) and `int()` truncates toward zero.
`float` division by `float(0)` raises `ZeroDivisionError`, surfaced as
`Except.error`. -/

/-- Python 3 `round(a / b)` for naturals with `b ≠ 0`: round half to
even. -/
def rheDiv (a b : ℕ) : ℕ :=
  let q := a / b
  let r := a % b
  if 2 * r < b then q
  else if b < 2 * r then q + 1
  else if q % 2 = 0 then q else q + 1

/-- Two-digit decimal rendering of `n < 100`. -/
def fmt2 (n : ℕ) : String :=
  if n < 10 then "0" ++ toString n else toString n

/-- Python `"{:6.2f}".format(q)` where `h` is `q` in hundredths
(`q ≥ 0`): two decimals, left-padded with blanks to width 6. -/
def format_6_2 (h : ℕ) : String :=
  let s := toString (h / 100) ++ "." ++ fmt2 (h % 100)
  if s.length < 6 then String.mk (List.replicate (6 - s.length) ' ') ++ s else s

/-- `utf_8s` from `progress.py`: full block plus the 1/8 … 7/8 blocks
(index 7 is a full block again, as in the source). -/
def utf_8s : List Char := ['█', '▏', '▎', '▍', '▌', '▋', '▊', '█']

structure PCOut where
  bar : List Char
  disp : String
deriving DecidableEq

/-- The body of `percent_complete` after the `perc` division
(`progress.py` lines 11-41), for `total_steps ≠ 0`:
* `num_ticks = int(round(perc / 100 * max_ticks))`, whose exact value
  is the half-to-even rounding of `step * max_ticks / total_steps`;
* `int(full_ticks)` with `full_ticks = num_ticks / 8 ≥ 0` is `num_ticks / 8`;
* the fill count `int(max_ticks/8 - num_ticks/8.0)` truncates toward
  zero, hence is `(max_ticks - num_ticks) / 8` and `0` when
  `num_ticks > max_ticks` (string repetition by a non-positive count is
  empty), matching truncated subtraction;
* `perc > 100.0` iff `total_steps < step`, and the clamped percentage in
  hundredths is `10000`, else the half-to-even rounding of
  `10000 * step / total_steps`. -/
def render_progress (step total_steps bar_width : ℕ) (title : String) (print_perc : Bool) : PCOut :=
  let max_ticks := bar_width * 8
  let num_ticks := rheDiv (step * max_ticks) total_steps
  let full_ticks := num_ticks / 8
  let part_ticks := num_ticks % 8
  let bar0 : List Char := List.replicate full_ticks '█'
  let bar1 := if 0 < part_ticks then bar0 ++ [utf_8s.getD part_ticks ' '] else bar0
  let bar := bar1 ++ List.replicate ((max_ticks - num_ticks) / 8) '▒'
  let disp0 := if 0 < title.length then title ++ ": " else ""
  let disp1 := disp0 ++ "\x1b[0;32m" ++ String.mk bar ++ "\x1b[0m"
  let hundredths := if total_steps < step then 10000 else rheDiv (10000 * step) total_steps
  let disp := if print_perc then disp1 ++ " " ++ format_6_2 hundredths ++ " %" else disp1
  PCOut.mk bar disp

/-- `percent_complete(step, total_steps, bar_width, title, print_perc)`:
`100 * float(step) / float(total_steps)` raises `ZeroDivisionError`
when `total_steps == 0`; otherwise the bar is rendered. -/
def percent_complete (step total_steps bar_width : ℕ) (title : String) (print_perc : Bool) :
    Except String PCOut :=
  if total_steps = 0 then Except.error "ZeroDivisionError: float division by zero"
  else Except.ok (render_progress step total_steps bar_width title print_perc)

/-! ## Work queue and worker loop (`scrape_worker`, `spider.py` lines 182-192)

A unit is either a scrape task (a sub-TOC entry, carrying its column)
or an image download.  The asyncio queue plus the two contextvar
counters form the crawl state; `errorsLogged` counts `logger.error`
calls from the except-handler.

Processing is abstracted by an environment: for a scrape unit it gives
the image tasks enqueued by `parse_imgs` before control returns (or
before the unit raises) and whether processing raises; for a download
unit, whether it raises.  Image units never enqueue further units
(`dl_img` only downloads), which the environment shape encodes. -/

inductive WorkUnit where
  | scrape (column title href : String)
  | dl_img (download_url output : String)
deriving DecidableEq

structure CrawlState where
  queue : List WorkUnit
  completed : ℕ
  total : ℕ
  errorsLogged : ℕ
deriving DecidableEq

structure WorkerEnv where
  scrapeImgs : String → String → String → List (String × String)
  scrapeRaises : String → String → String → Bool
  dlRaises : String → String → Bool

def imgUnits (l : List (String × String)) : List WorkUnit :=
  l.map fun p => WorkUnit.dl_img p.1 p.2

/-- Exact bound on the number of loop iterations of `scrape_worker`
from a given queue: one per queued unit plus one per image task an
enqueued scrape unit will spawn. -/
def envWeight (env : WorkerEnv) (q : List WorkUnit) : ℕ :=
  (q.map fun u =>
    match u with
    | WorkUnit.scrape c t hx => 1 + (env.scrapeImgs c t hx).length
    | WorkUnit.dl_img _ _ => 1).sum

/-- One `while not queue.empty()` iteration of `scrape_worker` per fuel
unit.  A scrape unit enqueues its images (each `queue.put` paired with
`total += 1`), then `completed += 1` runs only when processing did not
raise — the increment sits inside the `try`, after the dispatch.  When
processing raised, the handler logs (with `item['href']`, which exists
for scrape items) and the loop continues.  For a download unit that
raises, the handler's f-string evaluates `item['href']` on a dict that
has no such key, so the handler itself raises `KeyError` and the worker
coroutine aborts: modelled by the `true` crash flag. -/
def workerGo (env : WorkerEnv) : ℕ → CrawlState → CrawlState × Bool
  | 0, s => (s, false)
  | fuel + 1, s =>
    match s.queue with
    | [] => (s, false)
    | WorkUnit.scrape c t hx :: rest =>
      let imgs := imgUnits (env.scrapeImgs c t hx)
      let raises := env.scrapeRaises c t hx
      workerGo env fuel
        { queue := rest ++ imgs
          completed := if raises then s.completed else s.completed + 1
          total := s.total + imgs.length
          errorsLogged := if raises then s.errorsLogged + 1 else s.errorsLogged }
    | WorkUnit.dl_img u o :: rest =>
      if env.dlRaises u o then ({ s with queue := rest }, true)
      else workerGo env fuel { s with queue := rest, completed := s.completed + 1 }

def scrape_worker (env : WorkerEnv) (s : CrawlState) : CrawlState × Bool :=
  workerGo env (envWeight env s.queue) s

/-- The sequence of crawl states seen at the top of each
`scrape_worker` loop iteration (plus the state at exit). -/
def workerTraceGo (env : WorkerEnv) : ℕ → CrawlState → List CrawlState
  | 0, s => [s]
  | fuel + 1, s =>
    match s.queue with
    | [] => [s]
    | WorkUnit.scrape c t hx :: rest =>
      let imgs := imgUnits (env.scrapeImgs c t hx)
      let raises := env.scrapeRaises c t hx
      s :: workerTraceGo env fuel
        { queue := rest ++ imgs
          completed := if raises then s.completed else s.completed + 1
          total := s.total + imgs.length
          errorsLogged := if raises then s.errorsLogged + 1 else s.errorsLogged }
    | WorkUnit.dl_img u o :: rest =>
      if env.dlRaises u o then [s, { s with queue := rest }]
      else s :: workerTraceGo env fuel { s with queue := rest, completed := s.completed + 1 }

def worker_trace (env : WorkerEnv) (s : CrawlState) : List CrawlState :=
  workerTraceGo env (envWeight env s.queue) s

/-- `get_sub_toc` (`spider.py` lines 84-91): enqueue each parsed
sub-TOC entry tagged with the column title, incrementing `total` per
`queue.put`. -/
def get_sub_toc (column : String) : List (String × String) → CrawlState → CrawlState
  | [], s => s
  | e :: rest, s =>
    get_sub_toc column rest
      { s with queue := s.queue ++ [WorkUnit.scrape column e.1 e.2], total := s.total + 1 }

/-- States seen after each enqueue step of `get_sub_toc`. -/
def sub_toc_trace (column : String) : List (String × String) → CrawlState → List CrawlState
  | [], s => [s]
  | e :: rest, s =>
    s :: sub_toc_trace column rest
      { s with queue := s.queue ++ [WorkUnit.scrape column e.1 e.2], total := s.total + 1 }

/-- All counter states of one column's crawl: the reset state, the
states during sub-TOC enqueueing, and the states at each worker loop
iteration. -/
def column_crawl_trace (env : WorkerEnv) (column : String) (entries : List (String × String)) :
    List CrawlState :=
  sub_toc_trace column entries (CrawlState.mk [] 0 0 0) ++
    worker_trace env (get_sub_toc column entries (CrawlState.mk [] 0 0 0))

/-- Environment for the fault-isolation scenario: three scrape units,
the one with href `h2` raises `FetchError`, no images, no download
failures. -/
def envC1 : WorkerEnv :=
  WorkerEnv.mk (fun _ _ _ => []) (fun _ _ hx => hx == "h2") (fun _ _ => false)

/-- Queue of three sub-TOC scrape units for column `A`, as produced by
`get_sub_toc` from the reset state. -/
def crawlC1init : CrawlState :=
  get_sub_toc "A" [("t1", "h1"), ("t2", "h2"), ("t3", "h3")] (CrawlState.mk [] 0 0 0)

/-- Environment in which download units raise (e.g. the HTTP request
fails inside `dl_file`). -/
def envDlRaise : WorkerEnv :=
  WorkerEnv.mk (fun _ _ _ => []) (fun _ _ _ => false) (fun _ _ => true)

/-- Environment in which scrape units raise. -/
def envScrapeRaise : WorkerEnv :=
  WorkerEnv.mk (fun _ _ _ => []) (fun _ _ _ => true) (fun _ _ => false)

/-- Environment with no failures at all. -/
def envNoFail : WorkerEnv :=
  WorkerEnv.mk (fun _ _ _ => []) (fun _ _ _ => false) (fun _ _ => false)

/-! ## Content processing (`scrape_and_persist`, `spider.py` lines 120-171)

Byte-string paths and contents.  The external collaborators — the HTTP
fetch, lxml's `find_class`/`find`/`findall`/`tostring`, `hashlib.md5`
and markitdown's conversion — are abstracted as oracle functions in
`SPEnv`; the control flow, cache checks, file writes and fetch count
are the embedded code. -/

structure ImgTask where
  download_url : List ℕ
  output : List ℕ
deriving DecidableEq

structure Item where
  column : List ℕ
  title : List ℕ
  href : List ℕ
deriving DecidableEq

/-- What the code extracts from the article body `content`
(`post.find('.//div[p]')`): the `src` of each `img` under it, and the
serialized markup written to the raw cache (`''.join` of `'\n'` and the
`tostring` of each direct child, after the in-place `src` rewrites). -/
structure Content where
  imgs : List (List ℕ)
  serialized : List ℕ

/-- The parsed document: either built from the raw-cache file wrapped in
`<div class='book-post'><div>…</div></div>` by `load_content_from_local`
(so `find_class('book-post')` always succeeds on it), or parsed from a
live fetch. -/
inductive SrcDoc where
  | cachedDoc (data : List ℕ)
  | fetchedDoc (body : List ℕ)

structure SPEnv where
  fetchBody : List ℕ → List ℕ
  livePosts : List ℕ → Bool
  contentOf : SrcDoc → Option Content
  convert : List ℕ → List ℕ
  md5hex : List ℕ → List ℕ

/-- `doc.body.find_class('book-post')` is non-empty: always true for the
synthetic wrapper, an oracle for live fetches. -/
def docHasPosts (env : SPEnv) : SrcDoc → Bool
  | SrcDoc.cachedDoc _ => true
  | SrcDoc.fetchedDoc b => env.livePosts b

/-- The `data` variable written in the whole-page fallback branch.  That
branch only runs when `downloaded` is false, i.e. on a live fetch. -/
def docData : SrcDoc → List ℕ
  | SrcDoc.cachedDoc d => d
  | SrcDoc.fetchedDoc b => b

/-- Filesystem as an association list from path to file content. -/
abbrev FS := List (List ℕ × List ℕ)

def fsLookup (fs : FS) (p : List ℕ) : Option (List ℕ) :=
  match fs with
  | [] => none
  | (k, v) :: rest => if k = p then some v else fsLookup rest p

def fsWrite (fs : FS) (p v : List ℕ) : FS := (p, v) :: fs

/-- `md_file_path = os.path.join(ObsidianVaultPath, column, basename(href))`. -/
def sp_md_path (vault : List ℕ) (item : Item) : List ℕ :=
  joinB (joinB vault item.column) (basenameB item.href)

/-- `raw_file_path = os.path.join(Workspace, column, md5(basename).hexdigest() + ".html")`. -/
def sp_raw_path (env : SPEnv) (workspace : List ℕ) (item : Item) : List ℕ :=
  joinB (joinB workspace item.column)
    (env.md5hex (basenameB item.href) ++ [46, 104, 116, 109, 108])

/-- `parse_imgs` (`spider.py` lines 101-117), as the image tasks it
enqueues: the download URL joins the page's directory with the quoted
original `src`, while the output path joins the column directory with
the in-place rewritten `src` (dot check and `.png` append happen on the
original, unquoted attribute value). -/
def parse_imgs_tasks (imgs : List (List ℕ)) (url_path parent_dir : List ℕ) : List ImgTask :=
  imgs.map fun src =>
    ImgTask.mk (dirnameB url_path ++ 47 :: pyNormalize src)
      (joinB parent_dir (img_src_rewrite src))

structure SPResult where
  fs : FS
  fetchCalls : ℕ
  enqueued : List ImgTask
  errored : Bool

/-- `scrape_and_persist` for one scrape item.  `downloaded`/`processed`
are the existence checks on the raw-cache and rendered files; a cache
hit loads locally (no fetch), otherwise one fetch happens.  When no
`book-post` container exists and there was no cache, the whole page is
written to the rendered path and processing stops.  Otherwise
`content = post.find('.//div[p]')`; when that is `None`, `parse_imgs`
raises `AttributeError` (modelled by `errored`, nothing written).
Otherwise images are enqueued, the raw cache is written if absent, and
the rendered file is written (converting the raw-cache file) if it did
not exist. -/
def scrape_and_persist (env : SPEnv) (vault workspace : List ℕ) (item : Item) (fs : FS) :
    SPResult :=
  let url_path := pyNormalize item.href
  let md_file_path := sp_md_path vault item
  let raw_file_path := sp_raw_path env workspace item
  let column_dir := joinB vault item.column
  let downloaded := (fsLookup fs raw_file_path).isSome
  let processed := (fsLookup fs md_file_path).isSome
  let doc : SrcDoc :=
    match fsLookup fs raw_file_path with
    | some d => SrcDoc.cachedDoc d
    | none => SrcDoc.fetchedDoc (env.fetchBody url_path)
  let fetchCalls := if downloaded then 0 else 1
  if docHasPosts env doc = false ∧ downloaded = false then
    SPResult.mk (fsWrite fs md_file_path (docData doc)) fetchCalls [] false
  else
    match env.contentOf doc with
    | none => SPResult.mk fs fetchCalls [] true
    | some content =>
      let tasks := parse_imgs_tasks content.imgs url_path column_dir
      let fs1 := if downloaded = false then fsWrite fs raw_file_path content.serialized else fs
      let fs2 :=
        if processed = false then
          fsWrite fs1 md_file_path (env.convert ((fsLookup fs1 raw_file_path).getD []))
        else fs1
      SPResult.mk fs2 fetchCalls tasks false

/-- Concrete oracle environment for witnesses. -/
def envSP : SPEnv :=
  SPEnv.mk (fun _ => []) (fun _ => true) (fun _ => none) (fun b => b) (fun b => b)

/-- Concrete item (column `c`, title `t`, href `h`). -/
def itemSP : Item := Item.mk [99] [116] [104]

/-- Filesystem in which both the raw-cache and rendered files for
`itemSP` exist (vault `v` = byte 118, workspace `w` = byte 119). -/
def fsSP : FS :=
  [(sp_raw_path envSP [119] itemSP, [1]), (sp_md_path [118] itemSP, [2])]

/-! ## Run orchestration (`generate_toc` and `main`,
`spider.py` lines 208-277) -/

/-- Truthiness of an optional string flag: `None` and `""` are falsy. -/
def truthyOpt : Option String → Bool
  | none => false
  | some s => ! (s == "")

/-- Leading match of one character list against another. -/
def listLeq : List Char → List Char → Bool
  | [], _ => true
  | _ :: _, [] => false
  | a :: as, b :: bs => a == b && listLeq as bs

/-- Python `needle in hay` substring test. -/
def subOccurs (needle : List Char) : List Char → Bool
  | [] => listLeq needle []
  | c :: t => listLeq needle (c :: t) || subOccurs needle t

/-- Python `s.split('-')` over the character list of the string. -/
def splitOnDash : List Char → List (List Char)
  | [] => [[]]
  | c :: t =>
    if c == '-' then [] :: splitOnDash t
    else
      match splitOnDash t with
      | [] => [[c]]
      | h :: r => (c :: h) :: r

def parseDigitsGo : List Char → ℕ → Option ℕ
  | [], acc => some acc
  | c :: t, acc =>
    if decide ('0' ≤ c) && decide (c ≤ '9') then
      parseDigitsGo t (10 * acc + (c.toNat - 48))
    else none

/-- Python `int(s)` on a decimal literal with optional sign;
`ValueError` (here `none`) on anything else. -/
def pyInt? (s : List Char) : Option ℤ :=
  match s with
  | '-' :: t => if t = [] then none else (parseDigitsGo t 0).map fun n => -(n : ℤ)
  | '+' :: t => if t = [] then none else (parseDigitsGo t 0).map fun n => (n : ℤ)
  | t => if t = [] then none else (parseDigitsGo t 0).map fun n => (n : ℤ)

/-- Clamp a Python slice index into `[0, n]`, counting from the end
when negative. -/
def pyIdx (n : ℕ) (i : ℤ) : ℕ :=
  if i < 0 then ((n : ℤ) + i).toNat else min i.toNat n

/-- Python `l[a:b]`. -/
def pySlice {α : Type} (l : List α) (a b : ℤ) : List α :=
  (l.take (pyIdx l.length b)).drop (pyIdx l.length a)

structure Args where
  all : Bool
  columns : List String
  range : Option String
  keyword : Option String

/-- `generate_toc(root_toc, args)`: all columns; or the named columns;
or the inclusive 1-based range `start-end` (`root_toc[int(start)-1:int(end)]`,
`ValueError` on a malformed range); or the columns whose title contains
the keyword; or `[]`. -/
def generate_toc (root_toc : List TocEntry) (args : Args) : Except String (List TocEntry) :=
  if args.all then Except.ok root_toc
  else if ! (args.columns == []) then
    Except.ok (root_toc.filter fun i => args.columns.contains i.title)
  else if truthyOpt args.range then
    match splitOnDash (args.range.getD "").data with
    | [s, e] =>
      match pyInt? s, pyInt? e with
      | some si, some ei => Except.ok (pySlice root_toc (si - 1) ei)
      | _, _ => Except.error "ValueError: invalid literal for int"
    | _ => Except.error "ValueError: unpack"
  else if truthyOpt args.keyword then
    Except.ok (root_toc.filter fun i => subOccurs (args.keyword.getD "").data i.title.data)
  else Except.ok []

/-- One column's record in a run: its title, the state right after the
per-column counter reset (`completed_task_count.set(0)`,
`total_task_count.set(0)`), the state when the worker returned, and
whether the worker coroutine crashed (in which case `await worker`
re-raises and `main` aborts, so no further column runs). -/
structure ColumnRun where
  column : String
  initState : CrawlState
  finalState : CrawlState
  crashed : Bool

/-- The per-column loop of `main` (`spider.py` lines 266-277).  The
queue object is created once and shared across columns, so whatever a
crashed-or-finished worker left in it is what the next column starts
from; the counters are reset to 0/0 before each column's sub-TOC
fetch. -/
def main_loop (env : WorkerEnv) (sub : String → List (String × String)) :
    List TocEntry → List WorkUnit → List ColumnRun
  | [], _ => []
  | item :: rest, leftq =>
    let s0 := CrawlState.mk leftq 0 0 0
    let s1 := get_sub_toc item.title (sub item.href) s0
    let res := scrape_worker env s1
    ColumnRun.mk item.title s0 res.1 res.2 ::
      (if res.2 then [] else main_loop env sub rest res.1.queue)

/-- `main` after fetching the root TOC: select columns via
`generate_toc`, then crawl each selected column in order. -/
def main_run (env : WorkerEnv) (sub : String → List (String × String))
    (root_toc : List TocEntry) (args : Args) : Except String (List ColumnRun) :=
  (generate_toc root_toc args).map fun toc => main_loop env sub toc []

/-- The root TOC of the end-to-end scenario. -/
def rootABC : List TocEntry :=
  [TocEntry.mk "A" "hA", TocEntry.mk "B" "hB", TocEntry.mk "C" "hC"]

/-- Selection mode "range 1-2". -/
def argsRange12 : Args := Args.mk false [] (some "1-2") none

/-! ## Helper lemmas -/

theorem hexVal_hexUpper (n : ℕ) (h : n < 16) : hexVal (hexUpper n) = n := by
  unfold hexUpper hexVal
  split_ifs <;> omega

theorem isHexDigitB_hexUpper (n : ℕ) (h : n < 16) : isHexDigitB (hexUpper n) = true := by
  unfold hexUpper isHexDigitB
  split_ifs <;>
    simp only [Bool.or_eq_true, Bool.and_eq_true, decide_eq_true_eq] <;> omega

theorem quoteSafe_ne_37 {b : ℕ} (h : quoteSafe b = true) : b ≠ 37 := by
  intro hb
  subst hb
  exact absurd h (by decide)

theorem unquoteGo_cons_ne37 (fuel c : ℕ) (rest : List ℕ) (hc : c ≠ 37) :
    unquoteGo (fuel + 1) (c :: rest) = c :: unquoteGo fuel rest := by
  have hb : (c == 37) = false := beq_eq_false_iff_ne.mpr hc
  cases rest with
  | nil => rfl
  | cons h1 rest1 =>
    cases rest1 with
    | nil => rfl
    | cons h2 t => simp [unquoteGo, hb]

theorem unquoteGo_escape (fuel h1 h2 : ℕ) (t : List ℕ)
    (hh1 : isHexDigitB h1 = true) (hh2 : isHexDigitB h2 = true) :
    unquoteGo (fuel + 1) (37 :: h1 :: h2 :: t)
      = (16 * hexVal h1 + hexVal h2) :: unquoteGo fuel t := by
  simp [unquoteGo, hh1, hh2]

theorem quote_cons_safe {b : ℕ} (h : quoteSafe b = true) (t : List ℕ) :
    quote (b :: t) = b :: quote t := by
  simp [quote, h]

theorem quote_cons_escaped {b : ℕ} (h : quoteSafe b = false) (t : List ℕ) :
    quote (b :: t) = 37 :: hexUpper (b / 16) :: hexUpper (b % 16) :: quote t := by
  simp [quote, h]

theorem allBytes_cons {b : ℕ} {t : List ℕ} (h : allBytes (b :: t) = true) :
    b < 256 ∧ allBytes t = true := by
  simpa [allBytes] using h

theorem unquoteGo_quote (fuel : ℕ) :
    ∀ s : List ℕ, allBytes s = true → (quote s).length ≤ fuel →
      unquoteGo fuel (quote s) = s := by
  induction fuel with
  | zero =>
    intro s hs hl
    cases s with
    | nil => rfl
    | cons b t =>
      exfalso
      by_cases hb : quoteSafe b = true
      · rw [quote_cons_safe hb] at hl
        simp at hl
      · rw [quote_cons_escaped (by simpa using hb)] at hl
        simp at hl
  | succ n ih =>
    intro s hs hl
    cases s with
    | nil => rfl
    | cons b t =>
      obtain ⟨h256, ht⟩ := allBytes_cons hs
      by_cases hb : quoteSafe b = true
      · rw [quote_cons_safe hb] at hl ⊢
        rw [unquoteGo_cons_ne37 n b (quote t) (quoteSafe_ne_37 hb)]
        rw [ih t ht (by simpa using Nat.le_of_succ_le_succ hl)]
      · rw [quote_cons_escaped (by simpa using hb)] at hl ⊢
        rw [unquoteGo_escape n _ _ (quote t)
          (isHexDigitB_hexUpper _ (by omega)) (isHexDigitB_hexUpper _ (by omega))]
        rw [ih t ht (by simp at hl; omega)]
        rw [hexVal_hexUpper _ (by omega), hexVal_hexUpper _ (by omega)]
        congr 1
        omega

theorem unquote_quote (s : List ℕ) (hs : allBytes s = true) : unquote (quote s) = s := by
  unfold unquote
  exact unquoteGo_quote (quote s).length s hs le_rfl

theorem pySplitDot_no_dot (src : List ℕ) (h : 46 ∉ src) : pySplitDot src = [src] := by
  induction src with
  | nil => rfl
  | cons c t ih =>
    have hc : ¬ (c = 46) := fun hc => h (hc ▸ List.mem_cons_self c t)
    have ht : 46 ∉ t := fun hm => h (List.mem_cons_of_mem c hm)
    simp [pySplitDot, hc, ih ht]

theorem workerTraceGo_invariant (env : WorkerEnv) :
    ∀ (fuel : ℕ) (s : CrawlState), s.completed + s.queue.length ≤ s.total →
      ∀ x ∈ workerTraceGo env fuel s, x.completed ≤ x.total := by
  intro fuel
  induction fuel with
  | zero =>
    intro s hs x hx
    simp [workerTraceGo] at hx
    subst hx
    omega
  | succ n ih =>
    intro s hs x hx
    cases hq : s.queue with
    | nil =>
      simp [workerTraceGo, hq] at hx
      subst hx
      omega
    | cons u rest =>
      have hlen : s.completed + (rest.length + 1) ≤ s.total := by
        rw [hq] at hs
        simpa using hs
      cases u with
      | scrape c t hxx =>
        simp [workerTraceGo, hq] at hx
        rcases hx with rfl | hx
        · omega
        · refine ih _ ?_ x hx
          simp [imgUnits]
          split_ifs <;> omega
      | dl_img u o =>
        by_cases hd : env.dlRaises u o
        · simp [workerTraceGo, hq, hd] at hx
          rcases hx with rfl | rfl
          · omega
          · dsimp only
            omega
        · simp [workerTraceGo, hq, hd] at hx
          rcases hx with rfl | hx
          · omega
          · refine ih _ ?_ x hx
            simp
            omega

theorem get_sub_toc_invariant (column : String) :
    ∀ (entries : List (String × String)) (s : CrawlState),
      s.completed + s.queue.length ≤ s.total →
      (get_sub_toc column entries s).completed
          + (get_sub_toc column entries s).queue.length
        ≤ (get_sub_toc column entries s).total := by
  intro entries
  induction entries with
  | nil =>
    intro s hs
    simpa [get_sub_toc] using hs
  | cons e rest ih =>
    intro s hs
    simp only [get_sub_toc]
    apply ih
    simp
    omega

theorem sub_toc_trace_states (column : String) :
    ∀ (entries : List (String × String)) (s : CrawlState) (x : CrawlState),
      x ∈ sub_toc_trace column entries s → x.completed = s.completed ∧ s.total ≤ x.total := by
  intro entries
  induction entries with
  | nil =>
    intro s x hx
    simp [sub_toc_trace] at hx
    subst hx
    exact ⟨rfl, le_rfl⟩
  | cons e rest ih =>
    intro s x hx
    simp [sub_toc_trace] at hx
    rcases hx with rfl | hx
    · exact ⟨rfl, le_rfl⟩
    · have := ih _ x hx
      simp at this
      omega

theorem workerGo_no_dl_crash (env : WorkerEnv) (hnd : env.dlRaises = fun _ _ => false) :
    ∀ (fuel : ℕ) (s : CrawlState), (workerGo env fuel s).2 = false := by
  intro fuel
  induction fuel with
  | zero => intro s; rfl
  | succ n ih =>
    intro s
    cases hq : s.queue with
    | nil => simp [workerGo, hq]
    | cons u rest =>
      cases u with
      | scrape c t hx =>
        simp only [workerGo, hq]
        exact ih _
      | dl_img u o =>
        simp only [workerGo, hq, hnd]
        exact ih _

theorem main_loop_columns (env : WorkerEnv) (sub : String → List (String × String))
    (hnd : env.dlRaises = fun _ _ => false) :
    ∀ (sel : List TocEntry) (q : List WorkUnit),
      (main_loop env sub sel q).map ColumnRun.column = sel.map TocEntry.title := by
  intro sel
  induction sel with
  | nil => intro q; rfl
  | cons item rest ih =>
    intro q
    have hc :
        (scrape_worker env
            (get_sub_toc item.title (sub item.href) (CrawlState.mk q 0 0 0))).2 = false :=
      workerGo_no_dl_crash env hnd _ _
    simp [main_loop, hc, ih]

theorem main_loop_init_reset (env : WorkerEnv) (sub : String → List (String × String)) :
    ∀ (sel : List TocEntry) (q : List WorkUnit) (r : ColumnRun),
      r ∈ main_loop env sub sel q → r.initState.completed = 0 ∧ r.initState.total = 0 := by
  intro sel
  induction sel with
  | nil =>
    intro q r hr
    simp [main_loop] at hr
  | cons item rest ih =>
    intro q r hr
    simp [main_loop] at hr
    rcases hr with rfl | hr
    · exact ⟨rfl, rfl⟩
    · by_cases hcr :
        (scrape_worker env
            (get_sub_toc item.title (sub item.href) (CrawlState.mk q 0 0 0))).2 = true
      · simp [hcr] at hr
      · simp [hcr] at hr
        exact ih _ r hr

theorem rheDiv_mul_self (t k : ℕ) (ht : 0 < t) : rheDiv (t * k) t = k := by
  unfold rheDiv
  have h1 : t * k / t = k := Nat.mul_div_cancel_left k ht
  have h2 : t * k % t = 0 := Nat.mul_mod_right t k
  simp [h1, h2, ht]

theorem render_progress_total (t : ℕ) (ht : 0 < t) :
    render_progress t t 60 "" true = render_progress 1 1 60 "" true := by
  have h1 : rheDiv (t * (60 * 8)) t = 60 * 8 := rheDiv_mul_self t (60 * 8) ht
  have h2 : rheDiv (10000 * t) t = 10000 := by
    rw [Nat.mul_comm]
    exact rheDiv_mul_self t 10000 ht
  simp only [render_progress, h1, h2, Nat.lt_irrefl, if_false]
  decide

/-! ## Claim theorems -/

/-- Claim C1, counterexample: draining a queue of 3 scrape units where
unit 2 raises `FetchError` ends with `completed == 2`, not 3 — the
`completed_task_count` increment sits inside the `try` after the
dispatch, so a raising unit never reaches it. -/
theorem scrape_worker_midfail_completed_ne_three :
    (scrape_worker envC1 crawlC1init).1.completed = 2 ∧
      (scrape_worker envC1 crawlC1init).1.completed ≠ 3 := by
  decide

/-- Claim C1 (amended): each worker increments the completed counter by
exactly 1 after a dequeued unit's processing completes without raising,
and by 0 when it raises (the failure is logged instead); draining a
queue of 3 scrape units where unit 2 raises `FetchError` ends with
`completed == 2` and one error logged, with all three units dequeued. -/
theorem scrape_worker_completed_only_on_success :
    (∀ (env : WorkerEnv) (c t hx : String) (comp tot err : ℕ),
        env.scrapeImgs c t hx = [] → env.scrapeRaises c t hx = false →
        scrape_worker env (CrawlState.mk [WorkUnit.scrape c t hx] comp tot err)
          = (CrawlState.mk [] (comp + 1) tot err, false)) ∧
    (∀ (env : WorkerEnv) (c t hx : String) (comp tot err : ℕ),
        env.scrapeImgs c t hx = [] → env.scrapeRaises c t hx = true →
        scrape_worker env (CrawlState.mk [WorkUnit.scrape c t hx] comp tot err)
          = (CrawlState.mk [] comp tot (err + 1), false)) ∧
    scrape_worker envC1 crawlC1init = (CrawlState.mk [] 2 3 1, false) := by
  refine ⟨?_, ?_, by decide⟩
  · intro env c t hx comp tot err h1 h2
    have hw : envWeight env ((CrawlState.mk [WorkUnit.scrape c t hx] comp tot err).queue)
        = 0 + 1 := by
      simp [envWeight, h1]
    unfold scrape_worker
    rw [hw]
    simp only [workerGo]
    simp [imgUnits, h1, h2, workerGo]
  · intro env c t hx comp tot err h1 h2
    have hw : envWeight env ((CrawlState.mk [WorkUnit.scrape c t hx] comp tot err).queue)
        = 0 + 1 := by
      simp [envWeight, h1]
    unfold scrape_worker
    rw [hw]
    simp only [workerGo]
    simp [imgUnits, h1, h2, workerGo]

theorem scrape_worker_completed_only_on_success_witness :
    envNoFail.scrapeImgs "c" "t" "h" = [] ∧ envNoFail.scrapeRaises "c" "t" "h" = false ∧
      scrape_worker envNoFail (CrawlState.mk [WorkUnit.scrape "c" "t" "h"] 0 1 0)
        = (CrawlState.mk [] 1 1 0, false) :=
  ⟨rfl, rfl,
    scrape_worker_completed_only_on_success.1 envNoFail "c" "t" "h" 0 1 0 rfl rfl⟩

/-- Claim C2, counterexample: on a page whose `book-post` container is
present but holds no `ul`, `parse_toc` does not return the empty
sequence — `posts[0].find('.//ul')` is `None` and the unguarded
`toc.iterchildren()` raises `AttributeError`. -/
theorem parse_toc_missing_ul_raises :
    parse_toc (HtmlPage.mk [BookPost.mk none]) ≠ Except.ok [] ∧
      parse_toc (HtmlPage.mk [BookPost.mk none])
        = Except.error "AttributeError: NoneType has no attribute iterchildren" := by
  constructor
  · simp [parse_toc]
  · rfl

/-- Claim C2 (amended): `parse_toc` returns the empty sequence and
raises nothing when the post-body container is absent; when the
container is present but holds no unordered list, it raises
`AttributeError` instead. -/
theorem parse_toc_empty_cases :
    (∀ page : HtmlPage, page.posts = [] → parse_toc page = Except.ok []) ∧
      ∀ (post : BookPost) (rest : List BookPost), post.ul = none →
        parse_toc (HtmlPage.mk (post :: rest))
          = Except.error "AttributeError: NoneType has no attribute iterchildren" := by
  constructor
  · intro page hp
    cases page with
    | mk posts =>
      simp at hp
      subst hp
      rfl
  · intro post rest hu
    cases post with
    | mk ul =>
      simp at hu
      subst hu
      rfl

theorem parse_toc_empty_cases_witness :
    (HtmlPage.mk []).posts = [] ∧ parse_toc (HtmlPage.mk []) = Except.ok [] ∧
      (BookPost.mk none).ul = none ∧
      parse_toc (HtmlPage.mk [BookPost.mk none])
        = Except.error "AttributeError: NoneType has no attribute iterchildren" :=
  ⟨rfl, parse_toc_empty_cases.1 (HtmlPage.mk []) rfl, rfl,
    parse_toc_empty_cases.2 (BookPost.mk none) [] rfl⟩

/-- Claim C3: a scrape unit whose processing raises is caught and
logged and the worker continues (second conjunct), but for an
image-download unit whose processing raises, the except handler's
f-string evaluates `item['href']` on a dict without that key, raises
`KeyError`, and the worker coroutine aborts (first conjunct, crash flag
`true`) — contradicting the claim for image units. -/
theorem scrape_worker_dl_failure_crashes :
    scrape_worker envDlRaise (CrawlState.mk [WorkUnit.dl_img "u" "o"] 0 1 0)
      = (CrawlState.mk [] 0 1 0, true) ∧
    scrape_worker envScrapeRaise (CrawlState.mk [WorkUnit.scrape "c" "t" "h"] 0 1 0)
      = (CrawlState.mk [] 0 1 1, false) := by
  decide

/-- Claim C4, counterexample: the src `a.b/c` has no `.` after its
final path separator, yet `parse_imgs` leaves it unchanged — the code
tests `len(src.split('.')) < 2`, i.e. no `.` anywhere in the whole
src — so the rewritten value does not end in `.png`. -/
theorem img_src_rewrite_dir_dot_counterexample :
    (46 ∉ lastPathComponent srcDirDot) ∧
      img_src_rewrite srcDirDot = srcDirDot ∧
      ¬ [46, 112, 110, 103] <:+ img_src_rewrite srcDirDot := by
  decide

/-- Claim C4 (amended): for every img src containing no `.` at all,
the rewrite appends `.png`, so the rewritten src ends in `.png` and the
original is a prefix of it (srcs with a `.` anywhere, even only in a
directory component, are left unchanged). -/
theorem img_src_rewrite_no_dot_appends_png (src : List ℕ) (h : 46 ∉ src) :
    img_src_rewrite src = src ++ [46, 112, 110, 103] ∧
      src <+: img_src_rewrite src ∧ [46, 112, 110, 103] <:+ img_src_rewrite src := by
  have hs : pySplitDot src = [src] := pySplitDot_no_dot src h
  refine ⟨?_, ?_, ?_⟩ <;> simp [img_src_rewrite, hs]

theorem img_src_rewrite_no_dot_appends_png_witness :
    (46 ∉ ([97] : List ℕ)) ∧ img_src_rewrite [97] = [97] ++ [46, 112, 110, 103] :=
  ⟨by decide, (img_src_rewrite_no_dot_appends_png [97] (by decide)).1⟩

/-- Claim C5: when both the raw-cache file and the rendered-output file
for an href already exist, `scrape_and_persist` performs zero fetcher
calls (the content is loaded from the raw cache) and writes nothing at
all — in particular the rendered output is byte-identical. -/
theorem scrape_and_persist_cached_idempotent (env : SPEnv) (vault workspace : List ℕ)
    (item : Item) (fs : FS)
    (hraw : (fsLookup fs (sp_raw_path env workspace item)).isSome = true)
    (hmd : (fsLookup fs (sp_md_path vault item)).isSome = true) :
    (scrape_and_persist env vault workspace item fs).fetchCalls = 0 ∧
      (scrape_and_persist env vault workspace item fs).fs = fs := by
  obtain ⟨d, hd⟩ := Option.isSome_iff_exists.mp hraw
  obtain ⟨m, hm⟩ := Option.isSome_iff_exists.mp hmd
  unfold scrape_and_persist
  simp only [hd, hm]
  simp [docHasPosts]
  cases env.contentOf (SrcDoc.cachedDoc d) <;> simp

theorem scrape_and_persist_cached_idempotent_witness :
    (fsLookup fsSP (sp_raw_path envSP [119] itemSP)).isSome = true ∧
      (fsLookup fsSP (sp_md_path [118] itemSP)).isSome = true ∧
      (scrape_and_persist envSP [118] [119] itemSP fsSP).fetchCalls = 0 ∧
      (scrape_and_persist envSP [118] [119] itemSP fsSP).fs = fsSP :=
  ⟨by decide, by decide,
    (scrape_and_persist_cached_idempotent envSP [118] [119] itemSP fsSP
      (by decide) (by decide)).1,
    (scrape_and_persist_cached_idempotent envSP [118] [119] itemSP fsSP
      (by decide) (by decide)).2⟩

/-- Claim C6: the path-normalization step (quote-if-unquoted) is
idempotent on byte strings: normalizing an already-normalized value
returns it unchanged. -/
theorem pyNormalize_idempotent (s : List ℕ) (hs : allBytes s = true) :
    pyNormalize (pyNormalize s) = pyNormalize s := by
  have hq : unquote (quote s) = s := unquote_quote s hs
  unfold pyNormalize
  by_cases h : unquote s = s
  · rw [if_pos h]
    by_cases h2 : quote s = s
    · rw [if_pos (by rw [hq, h2]), h2]
      exact h2
    · rw [if_neg fun hcontra => h2 (hcontra.symm.trans hq)]
  · rw [if_neg h, if_neg h]

theorem pyNormalize_idempotent_witness :
    allBytes [37, 50, 48] = true ∧
      pyNormalize (pyNormalize [37, 50, 48]) = pyNormalize [37, 50, 48] :=
  ⟨by decide, pyNormalize_idempotent [37, 50, 48] (by decide)⟩

/-- Claim C7, counterexample: `percent_complete(total, total)` does not
render 100.00% for every total — at `total = 0` the percentage division
raises `ZeroDivisionError` and nothing is rendered. -/
theorem percent_complete_zero_total_error :
    percent_complete 0 0 60 "" true
        = Except.error "ZeroDivisionError: float division by zero" ∧
      (percent_complete 0 0 60 "" true).toOption = none :=
  ⟨rfl, rfl⟩

/-- Claim C7 (amended): `percent_complete(50, 100, bar_width=60)`
renders exactly 30 full-block glyphs, no partial glyph and 30 fill
glyphs, and its display ends in `" 50.00 %"`; and for every total `> 0`
(at `total = 0` the division raises), `percent_complete(total, total)`
renders a full bar whose display ends in `"100.00 %"`, with rounding
overshoot above 100 clamped (demonstrated at 100.04%). -/
theorem percent_complete_spec :
    ((percent_complete 50 100 60 "" true).toOption.map PCOut.bar
        = some (List.replicate 30 '█' ++ List.replicate 30 '▒')) ∧
      ((percent_complete 50 100 60 "" true).toOption.map
          (fun r => decide (" 50.00 %".data <:+ r.disp.data)) = some true) ∧
      (∀ t : ℕ, 0 < t →
          percent_complete t t 60 "" true = Except.ok (render_progress 1 1 60 "" true)) ∧
      ("100.00 %".data <:+ (render_progress 1 1 60 "" true).disp.data) ∧
      ((render_progress 1 1 60 "" true).bar = List.replicate 60 '█') ∧
      ("100.00 %".data <:+ (render_progress 2501 2500 60 "" true).disp.data) := by
  refine ⟨by decide, by decide, ?_, by decide, by decide, by decide⟩
  intro t ht
  unfold percent_complete
  rw [if_neg (Nat.pos_iff_ne_zero.mp ht), render_progress_total t ht]

theorem percent_complete_spec_witness :
    0 < 3 ∧ percent_complete 3 3 60 "" true = Except.ok (render_progress 1 1 60 "" true) :=
  ⟨by decide, percent_complete_spec.2.2.1 3 (by decide)⟩

/-- Claim C8: on the root TOC `["A","B","C"]` with selection mode range
"1-2", the orchestrator selects exactly columns A and B (inclusive
1-based indexing), crawls them in that order, and starts each column's
crawl from counters reset to 0/0. -/
theorem generate_toc_range_main (env : WorkerEnv) (sub : String → List (String × String))
    (hnd : env.dlRaises = fun _ _ => false) :
    generate_toc rootABC argsRange12
        = Except.ok [TocEntry.mk "A" "hA", TocEntry.mk "B" "hB"] ∧
      main_run env sub rootABC argsRange12
        = Except.ok (main_loop env sub [TocEntry.mk "A" "hA", TocEntry.mk "B" "hB"] []) ∧
      (main_loop env sub [TocEntry.mk "A" "hA", TocEntry.mk "B" "hB"] []).map
          ColumnRun.column = ["A", "B"] ∧
      ∀ r ∈ main_loop env sub [TocEntry.mk "A" "hA", TocEntry.mk "B" "hB"] [],
        r.initState.completed = 0 ∧ r.initState.total = 0 := by
  refine ⟨rfl, rfl, ?_, fun r hr => main_loop_init_reset env sub _ [] r hr⟩
  simpa using main_loop_columns env sub hnd [TocEntry.mk "A" "hA", TocEntry.mk "B" "hB"] []

theorem generate_toc_range_main_witness :
    (envNoFail.dlRaises = fun _ _ => false) ∧
      generate_toc rootABC argsRange12
        = Except.ok [TocEntry.mk "A" "hA", TocEntry.mk "B" "hB"] ∧
      (main_loop envNoFail (fun _ => []) [TocEntry.mk "A" "hA", TocEntry.mk "B" "hB"] []).map
          ColumnRun.column = ["A", "B"] :=
  ⟨rfl, (generate_toc_range_main envNoFail (fun _ => []) rfl).1,
    (generate_toc_range_main envNoFail (fun _ => []) rfl).2.2.1⟩

/-- Claim C9: throughout a column's crawl — from the 0/0 reset, through
sub-TOC enqueueing (total incremented per enqueued unit), through every
worker loop iteration (completed incremented at most once per dequeued
unit) — `completed_task_count ≤ total_task_count`. -/
theorem counters_invariant_throughout (env : WorkerEnv) (column : String)
    (entries : List (String × String)) (x : CrawlState)
    (hx : x ∈ column_crawl_trace env column entries) :
    x.completed ≤ x.total := by
  rcases List.mem_append.mp hx with h | h
  · have h0 := sub_toc_trace_states column entries (CrawlState.mk [] 0 0 0) x h
    simp at h0
    omega
  · exact workerTraceGo_invariant env _ _
      (get_sub_toc_invariant column entries (CrawlState.mk [] 0 0 0) (by simp)) x h

theorem counters_invariant_throughout_witness :
    CrawlState.mk [] 0 0 0 ∈ column_crawl_trace envNoFail "A" [("t", "h")] ∧
      (CrawlState.mk [] 0 0 0).completed ≤ (CrawlState.mk [] 0 0 0).total :=
  ⟨by decide,
    counters_invariant_throughout envNoFail "A" [("t", "h")] (CrawlState.mk [] 0 0 0)
      (by decide)⟩

/-- Claim C10: for every step, bar width, title and flag,
`percent_complete(step, 0, ...)` raises `ZeroDivisionError` — the
percentage computation `100 * float(step) / float(total_steps)` is
unguarded against `total_steps == 0`. -/
theorem percent_complete_zero_division (step bar_width : ℕ) (title : String) (pp : Bool) :
    percent_complete step 0 bar_width title pp
      = Except.error "ZeroDivisionError: float division by zero" := rfl

end TechDigest
